import Mathlib

/-!
Shallow embedding of the role-resolution middleware of the testbot
repository: the email/password server (src/server.js) and its OAuth
variant (src/unnamed/part_003).  JavaScript values that may be
undefined or null are modelled as Option String; JS truthiness and
strict equality are modelled explicitly.
-/

namespace Testbot

/-- JS truthiness of a possibly-undefined string value: undefined, null
and the empty string are falsy; every other string is truthy. -/
def jsTruthy : Option String → Bool
  | none => false
  | some s => s ≠ ""

/-- JS `v || d` for a possibly-undefined string `v` and string default
`d`: returns `d` exactly when `v` is falsy. -/
def jsOrDefault (v : Option String) (d : String) : String :=
  match v with
  | none => d
  | some s => if s = "" then d else s

/-- JS `v || null` (used for the `name` field at registration). -/
def jsOrNull (v : Option String) : Option String :=
  match v with
  | none => none
  | some s => if s = "" then none else some s

/-- JS strict equality `===` on possibly-undefined strings; note that
`undefined === undefined` is true. -/
def jsStrictEq : Option String → Option String → Bool
  | none, none => true
  | some a, some b => a == b
  | _, _ => false

/-- A verified identity as returned by the identity provider
(`supabase.auth.getUser`): subject id plus possibly-absent email. -/
structure Identity where
  id : String
  email : Option String
deriving DecidableEq

/-- Result of the single-row profile lookup
`.from("profiles").select("role").eq(id).single()`: a row with its
stored role column (possibly null), a no-row-found outcome, or a store
failure.  Both of the latter surface as `profileError` in the code. -/
inductive LookupResult where
  | found (role : Option String)
  | notFound
  | storeError
deriving DecidableEq

/-- The profile store, keyed by subject id
(`findRoleBySubjectId` in the specification). -/
abbrev Store := String → LookupResult

/-- What the auth middleware of src/server.js attaches to the request on
the role-resolution path (`req.userRole`, `req.isSuperAdmin`), plus an
instrumentation bit recording whether the profile lookup was invoked.
The JS code leaves `req.isSuperAdmin` undefined off the fail-safe path,
modelled as `none`. -/
structure RoleResolution where
  userRole : String
  isSuperAdmin : Option Bool
  lookupInvoked : Bool
deriving DecidableEq

/-- src/server.js lines 62-81: the role-resolution block of
`authenticateUser`, acting on a verified identity.  The fail-safe test
is the JS `user.email === process.env.SUPER_ADMIN_EMAIL`; on a
`profileError` the role defaults to "user", otherwise it is
`profile.role || "user"`. -/
def resolveRole (superAdminEmail : Option String) (store : Store)
    (user : Identity) : RoleResolution :=
  if jsStrictEq user.email superAdminEmail then
    { userRole := "admin", isSuperAdmin := some true, lookupInvoked := false }
  else
    match store user.id with
    | .found r =>
        { userRole := jsOrDefault r "user", isSuperAdmin := none, lookupInvoked := true }
    | .notFound =>
        { userRole := "user", isSuperAdmin := none, lookupInvoked := true }
    | .storeError =>
        { userRole := "user", isSuperAdmin := none, lookupInvoked := true }

/-- src/unnamed/part_003 lines 56-75: the role-resolution block of the
OAuth variant (`authMiddleware`).  Same policy as `resolveRole`; it does
not set a super-admin flag.  The OAuth variant performs no startup
validation of environment variables, so its `superAdminEmail` may be
`none`. -/
def authMiddleware (superAdminEmail : Option String) (store : Store)
    (user : Identity) : String :=
  if jsStrictEq user.email superAdminEmail then "admin"
  else
    match store user.id with
    | .found r => jsOrDefault r "user"
    | .notFound => "user"
    | .storeError => "user"

/-- A request body as destructured by the registration handler, with the
role field a caller may try to smuggle in (the handler never reads it). -/
structure RequestBody where
  email : Option String
  password : Option String
  name : Option String
  role : Option String
deriving DecidableEq

/-- An inbound HTTP request: Authorization header plus JSON body. -/
structure Request where
  authorization : Option String
  body : RequestBody
deriving DecidableEq

/-- Outcome of the full auth middleware. -/
inductive AuthOutcome where
  | noToken401
  | invalidToken401
  | authenticated (user : Identity) (res : RoleResolution)
deriving DecidableEq

/-- src/server.js lines 41-88: the full `authenticateUser` middleware.
`verify` models `supabaseAnon.auth.getUser`; the token is the header
with the first seven characters ("Bearer ") removed. -/
def authenticateUser (superAdminEmail : Option String)
    (verify : String → Option Identity) (store : Store)
    (req : Request) : AuthOutcome :=
  match req.authorization with
  | none => .noToken401
  | some h =>
    if h.startsWith "Bearer " then
      match verify (h.drop 7) with
      | none => .invalidToken401
      | some user => .authenticated user (resolveRole superAdminEmail store user)
    else .noToken401

/-- Outcome of the admin gate. -/
inductive GateResult where
  | denied403
  | allowed
deriving DecidableEq

/-- src/server.js lines 94-99 and src/unnamed/part_003 lines 91-99:
`requireAdmin` rejects with 403 whenever `req.userRole !== "admin"`,
otherwise passes the request to the handler. -/
def requireAdmin (userRole : String) : GateResult :=
  if userRole ≠ "admin" then .denied403 else .allowed

/-- src/server.js lines 10-17: startup validation of the email/password
server — the process exits unless every required environment variable,
including SUPER_ADMIN_EMAIL, is truthy.  The OAuth variant has no such
check. -/
def envValidated (superAdminEmail : Option String) : Bool :=
  jsTruthy superAdminEmail

/-- Outcome of `supabaseAdmin.auth.admin.createUser`. -/
inductive CreateUserResult where
  | ok (user : Identity)
  | err (msg : String)
deriving DecidableEq

/-- Outcome of the profile-row insert. -/
inductive InsertResult where
  | ok
  | err (msg : String)
deriving DecidableEq

/-- The profile row src/server.js lines 129-139 passes to the insert. -/
structure ProfileInsert where
  id : String
  email : Option String
  name : Option String
  role : String
deriving DecidableEq

/-- HTTP outcome of one registration call. -/
inductive RegisterOutcome where
  | badRequest400
  | createFailed400 (msg : String)
  | insertFailed500 (msg : String)
  | created201 (id : String) (email : Option String) (role : String)
deriving DecidableEq

/-- Observable effects of one POST /api/register call: the HTTP outcome,
the profile row passed to the insert when the insert was attempted, and
the subject id passed to `deleteUser` when the rollback ran. -/
structure RegisterEffects where
  outcome : RegisterOutcome
  insertedProfile : Option ProfileInsert
  deletedAuthUser : Option String
deriving DecidableEq

/-- src/server.js lines 106-159: the registration handler.  The body is
destructured into email, password and name only; the inserted row
carries the constant role "user".  When the insert fails the freshly
created auth user is deleted and a 500 is returned. -/
def registerHandler (body : RequestBody) (createUser : CreateUserResult)
    (insert : InsertResult) : RegisterEffects :=
  if !jsTruthy body.email || !jsTruthy body.password then
    { outcome := .badRequest400, insertedProfile := none, deletedAuthUser := none }
  else
    match createUser with
    | .err m =>
        { outcome := .createFailed400 m, insertedProfile := none, deletedAuthUser := none }
    | .ok user =>
        let row : ProfileInsert :=
          { id := user.id, email := user.email, name := jsOrNull body.name, role := "user" }
        match insert with
        | .err m =>
            { outcome := .insertFailed500 m, insertedProfile := some row,
              deletedAuthUser := some user.id }
        | .ok =>
            { outcome := .created201 user.id user.email row.role,
              insertedProfile := some row, deletedAuthUser := none }

/-- src/server.js lines 230 and 262: the `isSuperAdmin` field the
dashboard and profile responses report, `req.isSuperAdmin || false`. -/
def reportedIsSuperAdmin (res : RoleResolution) : Bool :=
  res.isSuperAdmin.getD false

/-- Helper: strict equality against a present configured email holds
exactly when the identity email is that same string. -/
theorem jsStrictEq_some_right (a : Option String) (e : String) :
    jsStrictEq a (some e) = true ↔ a = some e := by
  cases a with
  | none => simp [jsStrictEq]
  | some x => simp [jsStrictEq]

/-- C1: for every verified identity whose email equals the configured
fail-safe admin email (case-sensitive exact string match), the role
resolver returns "admin", for every possible store state, including when
the profile lookup errors or the profile row is missing — in both the
email/password server and the OAuth variant. -/
theorem failSafe_returns_admin (e : String) (store : Store) (user : Identity)
    (he : user.email = some e) :
    (resolveRole (some e) store user).userRole = "admin" ∧
    authMiddleware (some e) store user = "admin" := by
  constructor <;> simp [resolveRole, authMiddleware, jsStrictEq, he]

/-- Witness for C1: the fail-safe identity gets "admin" even over an
erroring store. -/
theorem failSafe_returns_admin_witness :
    (⟨"u1", some "admin@example.com"⟩ : Identity).email = some "admin@example.com" ∧
    ((resolveRole (some "admin@example.com") (fun _ => .storeError)
        ⟨"u1", some "admin@example.com"⟩).userRole = "admin" ∧
      authMiddleware (some "admin@example.com") (fun _ => .storeError)
        ⟨"u1", some "admin@example.com"⟩ = "admin") :=
  ⟨rfl, failSafe_returns_admin "admin@example.com" (fun _ => .storeError)
    ⟨"u1", some "admin@example.com"⟩ rfl⟩

/-- C2 counterexample: the claim that the resolver output always lies in
\x7badmin, user\x7d — and that a stored role other than "user"/"admin" is
mapped to "user" — fails: a stored truthy role "moderator" is returned
verbatim by both variants. -/
theorem resolver_output_set_cex :
    (resolveRole (some "admin@example.com")
        (fun _ => .found (some "moderator"))
        ⟨"u9", some "mallory@example.com"⟩).userRole = "moderator" ∧
    authMiddleware (some "admin@example.com")
        (fun _ => .found (some "moderator"))
        ⟨"u9", some "mallory@example.com"⟩ = "moderator" ∧
    ("moderator" ≠ "user" ∧ "moderator" ≠ "admin") := by
  refine ⟨rfl, rfl, by decide, by decide⟩

/-- C2 amended: when the lookup finds a profile (and the fail-safe does
not apply), the resolver returns the stored role verbatim when it is a
nonempty string and "user" when it is missing or empty — it does not map
arbitrary stored values into \x7badmin, user\x7d. -/
theorem resolver_found_verbatim (cfg : Option String) (store : Store)
    (user : Identity) (r : Option String)
    (hne : jsStrictEq user.email cfg = false)
    (hs : store user.id = .found r) :
    (resolveRole cfg store user).userRole = jsOrDefault r "user" ∧
    authMiddleware cfg store user = jsOrDefault r "user" := by
  constructor <;> simp [resolveRole, authMiddleware, hne, hs]

/-- Witness for the amended C2: a stored "moderator" role comes back as
"moderator". -/
theorem resolver_found_verbatim_witness :
    jsStrictEq (some "mallory@example.com") (some "admin@example.com") = false ∧
    ((fun _ => LookupResult.found (some "moderator")) "u9" =
      LookupResult.found (some "moderator")) ∧
    ((resolveRole (some "admin@example.com")
        (fun _ => .found (some "moderator"))
        ⟨"u9", some "mallory@example.com"⟩).userRole =
      jsOrDefault (some "moderator") "user" ∧
      authMiddleware (some "admin@example.com")
        (fun _ => .found (some "moderator"))
        ⟨"u9", some "mallory@example.com"⟩ =
      jsOrDefault (some "moderator") "user") :=
  ⟨by decide, rfl,
    resolver_found_verbatim (some "admin@example.com")
      (fun _ => .found (some "moderator"))
      ⟨"u9", some "mallory@example.com"⟩ (some "moderator") (by decide) rfl⟩

/-- C3: for every verified identity whose email differs from the
configured fail-safe email and whose subject id has no stored profile
(not-found or store error), the resolver returns "user" and never
"admin", in both variants. -/
theorem missing_profile_defaults_user (cfg : Option String) (store : Store)
    (user : Identity)
    (hne : jsStrictEq user.email cfg = false)
    (hs : store user.id = .notFound ∨ store user.id = .storeError) :
    ((resolveRole cfg store user).userRole = "user" ∧
      authMiddleware cfg store user = "user") ∧
    (resolveRole cfg store user).userRole ≠ "admin" := by
  rcases hs with hs | hs <;>
    refine ⟨⟨?_, ?_⟩, ?_⟩ <;> simp [resolveRole, authMiddleware, hne, hs]

/-- Witness for C3: an unknown subject with a different email gets
"user". -/
theorem missing_profile_defaults_user_witness :
    jsStrictEq (some "dave@example.com") (some "admin@example.com") = false ∧
    (((fun _ => LookupResult.notFound) "u3" = LookupResult.notFound) ∨
      ((fun _ => LookupResult.notFound) "u3" = LookupResult.storeError)) ∧
    (((resolveRole (some "admin@example.com") (fun _ => .notFound)
        ⟨"u3", some "dave@example.com"⟩).userRole = "user" ∧
      authMiddleware (some "admin@example.com") (fun _ => .notFound)
        ⟨"u3", some "dave@example.com"⟩ = "user") ∧
      (resolveRole (some "admin@example.com") (fun _ => .notFound)
        ⟨"u3", some "dave@example.com"⟩).userRole ≠ "admin") :=
  ⟨by decide, Or.inl rfl,
    missing_profile_defaults_user (some "admin@example.com") (fun _ => .notFound)
      ⟨"u3", some "dave@example.com"⟩ (by decide) (Or.inl rfl)⟩

/-- C4: for every verified identity whose email differs from the
fail-safe email and whose subject id has a stored profile, the resolver
returns the stored role: "admin" for stored "admin" and "user" for
stored "user", in both variants. -/
theorem stored_profile_role_respected (cfg : Option String) (store : Store)
    (user : Identity)
    (hne : jsStrictEq user.email cfg = false) :
    (store user.id = .found (some "admin") →
      (resolveRole cfg store user).userRole = "admin" ∧
      authMiddleware cfg store user = "admin") ∧
    (store user.id = .found (some "user") →
      (resolveRole cfg store user).userRole = "user" ∧
      authMiddleware cfg store user = "user") := by
  constructor <;> intro hs <;>
    constructor <;> simp [resolveRole, authMiddleware, jsOrDefault, hne, hs]

/-- Witness for C4: a stored "admin" profile yields "admin" for a
non-fail-safe identity. -/
theorem stored_profile_role_respected_witness :
    jsStrictEq (some "carol@example.com") (some "admin@example.com") = false ∧
    ((fun _ => LookupResult.found (some "admin")) "u2" =
      LookupResult.found (some "admin")) ∧
    ((resolveRole (some "admin@example.com") (fun _ => .found (some "admin"))
        ⟨"u2", some "carol@example.com"⟩).userRole = "admin" ∧
      authMiddleware (some "admin@example.com") (fun _ => .found (some "admin"))
        ⟨"u2", some "carol@example.com"⟩ = "admin") :=
  ⟨by decide, rfl,
    (stored_profile_role_respected (some "admin@example.com")
      (fun _ => .found (some "admin"))
      ⟨"u2", some "carol@example.com"⟩ (by decide)).1 rfl⟩

/-- C5: for every verified identity whose email equals the configured
fail-safe email, the store lookup is never invoked — the instrumentation
bit stays false, and the resolution is independent of the store, in both
variants. -/
theorem failSafe_short_circuits (e : String) (s1 s2 : Store) (user : Identity)
    (he : user.email = some e) :
    (resolveRole (some e) s1 user).lookupInvoked = false ∧
    resolveRole (some e) s1 user = resolveRole (some e) s2 user ∧
    authMiddleware (some e) s1 user = authMiddleware (some e) s2 user := by
  refine ⟨?_, ?_, ?_⟩ <;> simp [resolveRole, authMiddleware, jsStrictEq, he]

/-- Witness for C5: the fail-safe identity short-circuits; an erroring
store and an admin-granting store are indistinguishable. -/
theorem failSafe_short_circuits_witness :
    (⟨"u1", some "admin@example.com"⟩ : Identity).email = some "admin@example.com" ∧
    ((resolveRole (some "admin@example.com") (fun _ => .storeError)
        ⟨"u1", some "admin@example.com"⟩).lookupInvoked = false ∧
      resolveRole (some "admin@example.com") (fun _ => .storeError)
        ⟨"u1", some "admin@example.com"⟩ =
        resolveRole (some "admin@example.com") (fun _ => .found (some "admin"))
        ⟨"u1", some "admin@example.com"⟩ ∧
      authMiddleware (some "admin@example.com") (fun _ => .storeError)
        ⟨"u1", some "admin@example.com"⟩ =
        authMiddleware (some "admin@example.com") (fun _ => .found (some "admin"))
        ⟨"u1", some "admin@example.com"⟩) :=
  ⟨rfl, failSafe_short_circuits "admin@example.com" (fun _ => .storeError)
    (fun _ => .found (some "admin")) ⟨"u1", some "admin@example.com"⟩ rfl⟩

/-- C6: in the OAuth variant, which performs no startup validation of
environment variables, a missing configured fail-safe email (undefined)
together with a missing identity email (undefined) makes the strict
equality hold, so the resolver assigns "admin" — for every store state
and subject id. -/
theorem oauth_undefined_email_becomes_admin (store : Store) (uid : String) :
    envValidated none = false ∧
    authMiddleware none store ⟨uid, none⟩ = "admin" := by
  constructor <;> simp [envValidated, jsTruthy, authMiddleware, jsStrictEq]

/-- C7: the admin gate permits a request exactly when the resolved role
equals "admin"; every other resolved role is denied with 403. -/
theorem requireAdmin_iff (r : String) :
    (requireAdmin r = .allowed ↔ r = "admin") ∧
    (requireAdmin r = .denied403 ↔ r ≠ "admin") := by
  by_cases h : r = "admin" <;> simp [requireAdmin, h]

/-- Witness for C7: "admin" passes, "user" is denied with 403. -/
theorem requireAdmin_iff_witness :
    requireAdmin "admin" = .allowed ∧ requireAdmin "user" = .denied403 :=
  ⟨(requireAdmin_iff "admin").1.mpr rfl,
    (requireAdmin_iff "user").2.mpr (by decide)⟩

/-- Helper for C8: the registration handler inserts the constant role
"user" whenever the insert is attempted. -/
theorem registerHandler_inserts_user_role (body : RequestBody)
    (cu : CreateUserResult) (ins : InsertResult) :
    ∀ p, (registerHandler body cu ins).insertedProfile = some p →
      p.role = "user" := by
  intro p hp
  unfold registerHandler at hp
  split at hp
  · simp at hp
  · cases cu with
    | err m => simp at hp
    | ok user =>
      cases ins with
      | err m => simp at hp; rw [← hp]
      | ok => simp at hp; rw [← hp]

/-- C8: the resolved role is independent of any role value supplied in
the request body — two requests identical except for the body role field
produce identical middleware outcomes and identical registration
effects — and registration always stores the default role "user". -/
theorem role_not_taken_from_body (cfg : Option String)
    (verify : String → Option Identity) (store : Store)
    (req1 req2 : Request) (cu : CreateUserResult) (ins : InsertResult)
    (hauth : req1.authorization = req2.authorization)
    (he : req1.body.email = req2.body.email)
    (hp : req1.body.password = req2.body.password)
    (hn : req1.body.name = req2.body.name) :
    authenticateUser cfg verify store req1 = authenticateUser cfg verify store req2 ∧
    registerHandler req1.body cu ins = registerHandler req2.body cu ins ∧
    (∀ p, (registerHandler req1.body cu ins).insertedProfile = some p →
      p.role = "user") := by
  refine ⟨?_, ?_, registerHandler_inserts_user_role req1.body cu ins⟩
  · unfold authenticateUser; rw [hauth]
  · unfold registerHandler; rw [he, hp, hn]

/-- Witness for C8: two registration requests differing only in a
smuggled body role field behave identically, and the inserted profile
role is "user". -/
theorem role_not_taken_from_body_witness :
    authenticateUser (some "admin@example.com") (fun _ => none)
        (fun _ => .notFound)
        ⟨some "Bearer t", ⟨some "a@b.c", some "pw", some "Al", some "admin"⟩⟩ =
      authenticateUser (some "admin@example.com") (fun _ => none)
        (fun _ => .notFound)
        ⟨some "Bearer t", ⟨some "a@b.c", some "pw", some "Al", none⟩⟩ ∧
    registerHandler ⟨some "a@b.c", some "pw", some "Al", some "admin"⟩
        (.ok ⟨"u7", some "a@b.c"⟩) .ok =
      registerHandler ⟨some "a@b.c", some "pw", some "Al", none⟩
        (.ok ⟨"u7", some "a@b.c"⟩) .ok ∧
    (∀ p, (registerHandler ⟨some "a@b.c", some "pw", some "Al", some "admin"⟩
        (.ok ⟨"u7", some "a@b.c"⟩) .ok).insertedProfile = some p →
      p.role = "user") :=
  role_not_taken_from_body (some "admin@example.com") (fun _ => none)
    (fun _ => .notFound)
    ⟨some "Bearer t", ⟨some "a@b.c", some "pw", some "Al", some "admin"⟩⟩
    ⟨some "Bearer t", ⟨some "a@b.c", some "pw", some "Al", none⟩⟩
    (.ok ⟨"u7", some "a@b.c"⟩) .ok rfl rfl rfl rfl

/-- C9: when the auth user is created but the profile insert fails, the
handler deletes the new auth user by subject id and returns a 500
error — no account survives with an auth user but no profile. -/
theorem register_rollback_on_insert_failure (body : RequestBody)
    (user : Identity) (m : String)
    (he : jsTruthy body.email = true) (hpw : jsTruthy body.password = true) :
    (registerHandler body (.ok user) (.err m)).deletedAuthUser = some user.id ∧
    (registerHandler body (.ok user) (.err m)).outcome = .insertFailed500 m := by
  constructor <;> simp [registerHandler, he, hpw]

/-- Witness for C9: a failed insert after user creation deletes the auth
user "u7" and yields the 500 outcome. -/
theorem register_rollback_on_insert_failure_witness :
    jsTruthy (some "a@b.c") = true ∧ jsTruthy (some "pw") = true ∧
    ((registerHandler ⟨some "a@b.c", some "pw", none, none⟩
        (.ok ⟨"u7", some "a@b.c"⟩) (.err "dup")).deletedAuthUser = some "u7" ∧
      (registerHandler ⟨some "a@b.c", some "pw", none, none⟩
        (.ok ⟨"u7", some "a@b.c"⟩) (.err "dup")).outcome = .insertFailed500 "dup") :=
  ⟨by decide, by decide,
    register_rollback_on_insert_failure ⟨some "a@b.c", some "pw", none, none⟩
      ⟨"u7", some "a@b.c"⟩ "dup" (by decide) (by decide)⟩

/-- C10: with a configured fail-safe email, the reported super-admin
flag (`req.isSuperAdmin || false` as sent by the dashboard and profile
responses) is true exactly when the identity email equals that email;
an identity resolved to "admin" through a stored profile role is
reported with the flag false. -/
theorem superAdmin_flag_iff_failSafe (e : String) (store : Store)
    (user : Identity) :
    (reportedIsSuperAdmin (resolveRole (some e) store user) = true ↔
      user.email = some e) ∧
    (user.email ≠ some e → store user.id = .found (some "admin") →
      (resolveRole (some e) store user).userRole = "admin" ∧
      reportedIsSuperAdmin (resolveRole (some e) store user) = false) := by
  by_cases h : jsStrictEq user.email (some e) = true
  · have hm := (jsStrictEq_some_right user.email e).mp h
    constructor
    · simp [reportedIsSuperAdmin, resolveRole, jsStrictEq, h, hm]
    · intro hne; exact absurd hm hne
  · have hm : user.email ≠ some e := fun hc =>
      h ((jsStrictEq_some_right user.email e).mpr hc)
    have hf : jsStrictEq user.email (some e) = false := by
      cases hb : jsStrictEq user.email (some e)
      · rfl
      · exact absurd hb h
    constructor
    · constructor
      · intro hr
        exfalso
        cases hs : store user.id <;>
          simp [reportedIsSuperAdmin, resolveRole, hf, hs] at hr
      · intro hc; exact absurd hc hm
    · intro _ hs
      constructor <;>
        simp [resolveRole, reportedIsSuperAdmin, jsOrDefault, hf, hs]

/-- Witness for C10: a stored-profile admin is reported with the
super-admin flag false, while the flag tracks the fail-safe email. -/
theorem superAdmin_flag_iff_failSafe_witness :
    (⟨"u2", some "carol@example.com"⟩ : Identity).email ≠ some "admin@example.com" ∧
    ((fun _ => LookupResult.found (some "admin")) "u2" =
      LookupResult.found (some "admin")) ∧
    ((resolveRole (some "admin@example.com") (fun _ => .found (some "admin"))
        ⟨"u2", some "carol@example.com"⟩).userRole = "admin" ∧
      reportedIsSuperAdmin (resolveRole (some "admin@example.com")
        (fun _ => .found (some "admin"))
        ⟨"u2", some "carol@example.com"⟩) = false) :=
  ⟨by decide, rfl,
    (superAdmin_flag_iff_failSafe "admin@example.com"
      (fun _ => .found (some "admin"))
      ⟨"u2", some "carol@example.com"⟩).2 (by decide) rfl⟩

end Testbot
